import Mathlib

/-!
Verification of the dueDash authentication subsystem (`app/auth.py`,
`verify_token_and_get_user` in `app/main.py`) and of the realtime
connection manager (`ConnectionManager` in `app/main.py`).

Modelling conventions:
* Time is an integer count of seconds (`Int`).
* A JWT is a pair of its claim set and a signature.  HMAC signing is
  modelled as a perfect MAC: a signature is the pair (signed claims, key),
  so a signature verifies against `secret` iff it was produced by signing
  exactly these claims with exactly this `secret`.
* `python-jose`'s `jwt.decode` verifies the signature first (a failure
  raises `JWTError`) and only then validates the `exp` claim: with zero
  leeway the token is expired iff `exp < now` (`ExpiredSignatureError`).
* A WebSocket handle is a natural number; the `active_connections` dict
  (insertion ordered, as Python dicts are) is an association list.
* `await websocket.send_text(...)` either succeeds or raises; which
  connections raise is a parameter `fails : Handle → Bool` of the
  broadcast functions.  A broadcast returns the ordered list of performed
  deliveries `(handle, text)` together with the registry state after the
  clean-up pass.
-/

/-- A row of the `users` table (`app/models.py`): only the fields the
authentication path reads. -/
structure User where
  id : Nat
  username : String
  hashed_password : String
deriving DecidableEq, Repr

/-- The JWT claim set built by `create_access_token`: `sub`, `iat`, `exp`,
`type`.  `sub` and `type` are `Option` because `payload.get(...)` can see
an absent claim in a foreign token. -/
structure Claims where
  sub : Option String
  iat : Int
  exp : Int
  typ : Option String
deriving DecidableEq, Repr

/-- A signature, modelled as a perfect MAC: the signed content together
with the signing key. -/
structure Sig where
  content : Claims
  key : String
deriving DecidableEq, Repr

/-- A serialized JWT: claims plus the signature over them. -/
structure Token where
  claims : Claims
  sig : Sig
deriving DecidableEq, Repr

/-- Model of `jose.jwt.encode(claims, key, algorithm)`: attaches the HMAC signature
over the claims. -/
def jwt_encode (c : Claims) (key : String) : Token :=
  ⟨c, ⟨c, key⟩⟩

/-- The `ACCESS_TOKEN_EXPIRE_MINUTES` setting (`auth.py` line 22), default 30. -/
def ACCESS_TOKEN_EXPIRE_MINUTES : Int := 30

/-- Model of `create_access_token` (`auth.py` lines 35-48) for `data = {"sub": subject}`:
sets `exp` to `now + expires_delta` (or the 30-minute default), `iat` to
`now`, `"type"` to `"access"`, and signs with the process secret. -/
def create_access_token (subject : String) (expires_delta : Option Int)
    (now : Int) (secret : String) : Token :=
  let expire : Int :=
    match expires_delta with
    | some d => now + d
    | none => now + ACCESS_TOKEN_EXPIRE_MINUTES * 60
  jwt_encode ⟨some subject, now, expire, some "access"⟩ secret

/-- Outcomes of `jose.jwt.decode` reachable for this token space:
`SignatureInvalid` is the `JWTError` raised when signature verification
fails, `ExpiredSignature` the `ExpiredSignatureError` from `exp`
validation. -/
inductive DecodeError where
  | SignatureInvalid
  | ExpiredSignature
deriving DecidableEq, Repr

/-- Model of `jose.jwt.decode(token, secret, algorithms)`: verifies the signature
first; only then validates `exp` (expired iff `exp < now`, zero leeway);
on success returns the claim set. -/
def jwt_decode (t : Token) (secret : String) (now : Int) :
    Except DecodeError Claims :=
  if t.sig = ⟨t.claims, secret⟩ then
    if t.claims.exp < now then .error .ExpiredSignature
    else .ok t.claims
  else .error .SignatureInvalid

/-- An `HTTPException` as observed by the client: status code and detail
string. -/
structure AuthReject where
  status_code : Nat
  detail : String
deriving DecidableEq, Repr

/-- The `credentials_exception` value (`auth.py` lines 56-60). -/
def credentials_exception : AuthReject :=
  ⟨401, "Could not validate credentials"⟩

/-- The token-verification portion of `get_current_user` (`auth.py` lines
62-91): decode (signature, then expiry), check `type == "access"`, then
extract `sub`; yields the subject or the `HTTPException` the code raises.
`ExpiredSignatureError` is rendered as "Token has expired", a bad
signature (`JWTError`) and a missing `sub` both as
`credentials_exception`, a wrong type as "Invalid token type". -/
def verify_token (t : Token) (secret : String) (now : Int) :
    Except AuthReject String :=
  match jwt_decode t secret now with
  | .error .SignatureInvalid => .error credentials_exception
  | .error .ExpiredSignature => .error ⟨401, "Token has expired"⟩
  | .ok payload =>
    if payload.typ = some "access" then
      match payload.sub with
      | some username => .ok username
      | none => .error credentials_exception
    else .error ⟨401, "Invalid token type"⟩

/-- Model of `get_user` (`auth.py` lines 50-53): first user row with the given
username. -/
def get_user (db : List User) (username : String) : Option User :=
  db.find? (fun u => u.username = username)

/-- Model of `get_current_user` (`auth.py` lines 55-97): verify the token, then
resolve the subject in the user table; an unknown subject raises
`credentials_exception`. -/
def get_current_user (t : Token) (secret : String) (now : Int)
    (db : List User) : Except AuthReject User :=
  match verify_token t secret now with
  | .error e => .error e
  | .ok username =>
    match get_user db username with
    | none => .error credentials_exception
    | some u => .ok u

/-- Model of `verify_token_and_get_user` (`main.py` lines 185-218), the realtime
path's authentication.  Same decode / type / sub / lookup sequence as
`get_current_user`, but the `HTTPException`s raised inside the `try`
block ("Invalid token type", "Invalid token", "User not found") are not
`JWTError`s, so they are caught by the trailing `except Exception` and
re-raised as `HTTPException(401, "Invalid token")`; only the `jose`
exceptions keep their specific details. -/
def verify_token_and_get_user (t : Token) (secret : String) (now : Int)
    (db : List User) : Except AuthReject User :=
  match jwt_decode t secret now with
  | .error .SignatureInvalid => .error ⟨401, "Could not validate credentials"⟩
  | .error .ExpiredSignature => .error ⟨401, "Token has expired"⟩
  | .ok payload =>
    if payload.typ = some "access" then
      match payload.sub with
      | some username =>
        match get_user db username with
        | none => .error ⟨401, "Invalid token"⟩
        | some u => .ok u
      | none => .error ⟨401, "Invalid token"⟩
    else .error ⟨401, "Invalid token"⟩

/-- The spec's Token Service error taxonomy (spec §4.1, §7):
`Malformed`, `Expired`, `WrongType`, `MissingSubject`. -/
inductive VerifyError where
  | Malformed
  | Expired
  | WrongType
  | MissingSubject
deriving DecidableEq, Repr

/-- Token verification classified in the spec's taxonomy, following the
code's check order (signature, expiry, type, subject): used to state
which `VerifyError` kind a given token falls under. -/
def classify_token (t : Token) (secret : String) (now : Int) :
    Except VerifyError String :=
  match jwt_decode t secret now with
  | .error .SignatureInvalid => .error .Malformed
  | .error .ExpiredSignature => .error .Expired
  | .ok payload =>
    if payload.typ = some "access" then
      match payload.sub with
      | some username => .ok username
      | none => .error .MissingSubject
    else .error .WrongType

/-- How `get_current_user` renders each `VerifyError` kind as an
`HTTPException` (`auth.py` lines 62-91): `Expired` and `WrongType` get
their own details, while `Malformed` (`JWTError`) and `MissingSubject`
both raise `credentials_exception`. -/
def renderVerifyError : VerifyError → AuthReject
  | .Malformed => credentials_exception
  | .Expired => ⟨401, "Token has expired"⟩
  | .WrongType => ⟨401, "Invalid token type"⟩
  | .MissingSubject => credentials_exception

/-- Forgets the rejection, keeping only the authentication decision. -/
def acceptedUser : Except AuthReject User → Option User
  | .ok u => some u
  | .error _ => none

/-! ## Connection registry (`ConnectionManager`, `main.py` lines 141-180) -/

/-- A live WebSocket handle. -/
abbrev Handle := Nat

/-- The `active_connections : Dict[WebSocket, str]` state — Python dicts preserve
insertion order, so the registry is an association list from handle to
username. -/
abbrev Registry := List (Handle × String)

/-- Dict assignment `d[ws] = u`: updates in place if the key is present,
otherwise appends at the end (Python insertion order). -/
def dictInsert (r : Registry) (ws : Handle) (u : String) : Registry :=
  if r.any (fun p => p.1 = ws) then
    r.map (fun p => if p.1 = ws then (ws, u) else p)
  else r ++ [(ws, u)]

/-- Dict lookup `d.get(ws)`. -/
def dictGet (r : Registry) (ws : Handle) : Option String :=
  (r.find? (fun p => p.1 = ws)).map (fun p => p.2)

/-- Dict removal `d.pop(ws, None)` applied to every handle in `fs` in order (`for ws in
disconnected: self.active_connections.pop(ws, None)`).  Each pop removes
the entry with that key, if any. -/
def removeAll (r : Registry) (fs : List Handle) : Registry :=
  match fs with
  | [] => r
  | h :: t => removeAll (r.filter (fun p => p.1 ≠ h)) t

/-- The iteration-and-send loop shared by `broadcast` and
`broadcast_system` (`main.py` lines 156-161 and 170-176): walk the
registry in order, skip the excluded sender, try to send to everyone
else; a send that raises adds the handle to `disconnected`.  Returns
(deliveries performed, `disconnected`). -/
def broadcastPass (conns : List (Handle × String)) (msg : String)
    (ex : Option Handle) (fails : Handle → Bool) :
    List (Handle × String) × List Handle :=
  match conns with
  | [] => ([], [])
  | (ws, _) :: rest =>
    let r := broadcastPass rest msg ex fails
    if ex = some ws then r
    else if fails ws then (r.1, ws :: r.2)
    else ((ws, msg) :: r.1, r.2)

/-- Model of `ConnectionManager.broadcast` (`main.py` lines 167-180): no-op on an
empty registry; otherwise send `msg` to every connection other than
`sender`, then pop every handle whose send failed. -/
def broadcast (r : Registry) (msg : String) (sender : Option Handle)
    (fails : Handle → Bool) : List (Handle × String) × Registry :=
  if r.isEmpty then ([], r)
  else
    let p := broadcastPass r msg sender fails
    (p.1, removeAll r p.2)

/-- Model of `ConnectionManager.broadcast_system` (`main.py` lines 153-165): like
`broadcast` but with no excluded sender and the text prefixed
`"System: "`. -/
def broadcast_system (r : Registry) (msg : String) (fails : Handle → Bool) :
    List (Handle × String) × Registry :=
  if r.isEmpty then ([], r)
  else
    let p := broadcastPass r ("System: " ++ msg) none fails
    (p.1, removeAll r p.2)

/-- Model of `ConnectionManager.connect` (`main.py` lines 145-148): accept the
socket, record `active_connections[websocket] = username`, then announce
`"<username> joined the chat"` via `broadcast_system` — the mapping is
recorded before the announcement. -/
def connect (r : Registry) (ws : Handle) (username : String)
    (fails : Handle → Bool) : List (Handle × String) × Registry :=
  broadcast_system (dictInsert r ws username) (username ++ " joined the chat") fails

/-- Model of `ConnectionManager.disconnect` (`main.py` lines 150-151):
`active_connections.pop(websocket, None)` — returns the username that was
registered, if any, and removes the entry. -/
def disconnect (r : Registry) (ws : Handle) : Option String × Registry :=
  (dictGet r ws, r.filter (fun p => p.1 ≠ ws))

/-! ## Concrete tokens used in counterexamples and witnesses -/

/-- A claim set carrying `exp = 5`, used with a verification clock of 10. -/
def pastExpClaims : Claims := ⟨some "alice", 0, 5, some "access"⟩

/-- A well-formed, unexpired claim set signed with the wrong key. -/
def tokenWrongKey : Token := jwt_encode ⟨some "alice", 0, 100, some "access"⟩ "other"

/-- A correctly signed, unexpired access token with no `sub` claim. -/
def tokenNoSub : Token := jwt_encode ⟨none, 0, 100, some "access"⟩ "secret"

/-- A correctly signed, unexpired access token for subject `"alice"`. -/
def tokenAlice : Token := jwt_encode ⟨some "alice", 0, 100, some "access"⟩ "secret"

/-! ## Helper lemmas about the registry operations -/

theorem broadcastPass_delivers (conns : List (Handle × String)) (msg : String)
    (ex : Option Handle) (fails : Handle → Bool) (ws : Handle) (u : String)
    (hmem : (ws, u) ∈ conns) (hex : ex ≠ some ws) (hf : fails ws = false) :
    (ws, msg) ∈ (broadcastPass conns msg ex fails).1 := by
  induction conns with
  | nil => simp at hmem
  | cons hd tl ih =>
    obtain ⟨w, v⟩ := hd
    rcases List.mem_cons.mp hmem with heq | htl
    · cases heq
      simp only [broadcastPass, if_neg hex, hf, Bool.false_eq_true, if_neg, ite_false]
      simp
    · have := ih htl
      simp only [broadcastPass]
      split
      · exact this
      · split
        · exact this
        · exact List.mem_cons_of_mem _ this

theorem broadcastPass_records_failure (conns : List (Handle × String)) (msg : String)
    (ex : Option Handle) (fails : Handle → Bool) (ws : Handle) (u : String)
    (hmem : (ws, u) ∈ conns) (hex : ex ≠ some ws) (hf : fails ws = true) :
    ws ∈ (broadcastPass conns msg ex fails).2 := by
  induction conns with
  | nil => simp at hmem
  | cons hd tl ih =>
    obtain ⟨w, v⟩ := hd
    rcases List.mem_cons.mp hmem with heq | htl
    · cases heq
      simp only [broadcastPass, if_neg hex, hf, ite_true]
      simp
    · have := ih htl
      simp only [broadcastPass]
      split
      · exact this
      · split
        · exact List.mem_cons_of_mem _ this
        · exact this

theorem not_mem_removeAll_of_not_mem (fs : List Handle) (r : Registry)
    (ws : Handle) (v : String) (h : (ws, v) ∉ r) : (ws, v) ∉ removeAll r fs := by
  induction fs generalizing r with
  | nil => simpa [removeAll] using h
  | cons f t ih =>
    simp only [removeAll]
    exact ih _ (fun hmem => h (List.mem_of_mem_filter hmem))

theorem not_mem_removeAll (fs : List Handle) (r : Registry) (ws : Handle)
    (v : String) (h : ws ∈ fs) : (ws, v) ∉ removeAll r fs := by
  induction fs generalizing r with
  | nil => simp at h
  | cons f t ih =>
    simp only [removeAll]
    rcases List.mem_cons.mp h with rfl | ht
    · exact not_mem_removeAll_of_not_mem _ _ _ _ (by simp [List.mem_filter])
    · exact ih _ ht

theorem dictGet_eq_none_iff (r : Registry) (ws : Handle) :
    dictGet r ws = none ↔ ∀ v, (ws, v) ∉ r := by
  simp only [dictGet, Option.map_eq_none', List.find?_eq_none, decide_eq_true_eq]
  constructor
  · intro h v hv
    exact h _ hv rfl
  · rintro h ⟨a, b⟩ hab rfl
    exact h b hab

theorem dictGet_filter_self (r : Registry) (ws : Handle) :
    dictGet (r.filter (fun p => p.1 ≠ ws)) ws = none := by
  rw [dictGet_eq_none_iff]
  intro v hv
  have := List.mem_filter.mp hv
  simp at this

theorem dictGet_cons (a : Handle) (b : String) (tl : Registry) (h : Handle) :
    dictGet ((a, b) :: tl) h = if a = h then some b else dictGet tl h := by
  by_cases hah : a = h
  · rw [if_pos hah]
    unfold dictGet
    rw [List.find?_cons_of_pos _ (by simpa using hah)]
    rfl
  · rw [if_neg hah]
    unfold dictGet
    rw [List.find?_cons_of_neg _ (by simpa using hah)]

theorem dictGet_filter_ne (r : Registry) (ws h : Handle) (hne : h ≠ ws) :
    dictGet (r.filter (fun p => p.1 ≠ ws)) h = dictGet r h := by
  induction r with
  | nil => rfl
  | cons hd tl ih =>
    obtain ⟨a, b⟩ := hd
    rw [List.filter_cons]
    by_cases haw : a = ws
    · rw [if_neg (by simp [haw]), ih, dictGet_cons,
        if_neg (fun hc => hne (by rw [← hc, haw]))]
    · rw [if_pos (by simp [haw]), dictGet_cons, dictGet_cons, ih]

theorem filter_eq_self_of_dictGet_none (r : Registry) (ws : Handle)
    (h : dictGet r ws = none) : r.filter (fun p => p.1 ≠ ws) = r := by
  rw [dictGet_eq_none_iff] at h
  apply List.filter_eq_self.mpr
  rintro ⟨a, b⟩ hab
  simp only [decide_eq_true_eq]
  rintro rfl
  exact h b hab

theorem broadcastPass_noFail (conns : List (Handle × String)) (msg : String)
    (ex : Option Handle) :
    broadcastPass conns msg ex (fun _ => false) =
      ((conns.filter (fun p => ex ≠ some p.1)).map (fun p => (p.1, msg)), []) := by
  induction conns with
  | nil => rfl
  | cons hd tl ih =>
    obtain ⟨a, b⟩ := hd
    simp only [broadcastPass]
    by_cases hex : ex = some a
    · rw [if_pos hex, ih, List.filter_cons, if_neg (by simp [hex])]
    · rw [if_neg hex, if_neg (by simp), ih, List.filter_cons,
        if_pos (by simpa using hex)]
      simp

theorem removeAll_nil (r : Registry) : removeAll r [] = r := rfl

theorem mem_dictInsert_self (r : Registry) (ws : Handle) (u : String) :
    (ws, u) ∈ dictInsert r ws u := by
  unfold dictInsert
  split
  · rename_i hany
    obtain ⟨p, hp, hkey⟩ := List.any_eq_true.mp hany
    have hkey' : p.1 = ws := by simpa using hkey
    refine List.mem_map.mpr ⟨p, hp, ?_⟩
    simp [hkey']
  · simp

theorem dictInsert_ne_nil (r : Registry) (ws : Handle) (u : String) :
    dictInsert r ws u ≠ [] := by
  intro hc
  exact (List.ne_nil_of_mem (mem_dictInsert_self r ws u)) hc

/-! ## Claims about the connection registry -/

/-- C1: during a broadcast (plain or system), a send failure on one
connection does not abort delivery: every other Registered, non-excluded,
non-failing connection still receives the message; and every connection
whose send failed is removed in the clean-up pass, hence absent from the
registry seen by the next broadcast call. -/
theorem broadcast_failure_isolation (r : Registry) (msg : String)
    (ex : Option Handle) (fails : Handle → Bool) (ws : Handle) (u : String)
    (hmem : (ws, u) ∈ r) (hex : ex ≠ some ws) :
    (fails ws = false → (ws, msg) ∈ (broadcast r msg ex fails).1) ∧
    (fails ws = true → ∀ v, (ws, v) ∉ (broadcast r msg ex fails).2) ∧
    (fails ws = false → (ws, "System: " ++ msg) ∈ (broadcast_system r msg fails).1) ∧
    (fails ws = true → ∀ v, (ws, v) ∉ (broadcast_system r msg fails).2) := by
  cases r with
  | nil => simp at hmem
  | cons hd tl =>
    simp only [broadcast, broadcast_system, List.isEmpty_cons, Bool.false_eq_true,
      if_false]
    refine ⟨?_, ?_, ?_, ?_⟩
    · intro hf
      exact broadcastPass_delivers _ msg ex fails ws u hmem hex hf
    · intro hf v
      exact not_mem_removeAll _ _ _ _
        (broadcastPass_records_failure _ msg ex fails ws u hmem hex hf)
    · intro hf
      exact broadcastPass_delivers _ _ none fails ws u hmem (by simp) hf
    · intro hf v
      exact not_mem_removeAll _ _ _ _
        (broadcastPass_records_failure _ _ none fails ws u hmem (by simp) hf)

/-- Witness for C1: in a three-connection registry where handle 3's send
fails, handle 1 (not excluded, not failing) still receives the message. -/
theorem broadcast_failure_isolation_witness :
    ((1 : Handle), "m") ∈ (broadcast [(1, "a"), (2, "b"), (3, "c")] "m" (some 9)
      (fun h => decide (h = 3))).1 :=
  (broadcast_failure_isolation [(1, "a"), (2, "b"), (3, "c")] "m" (some 9)
    (fun h => decide (h = 3)) 1 "a" (by simp) (by simp)).1 (by decide)

/-- C7 counterexample: `connect` records the mapping *before* announcing,
so the joining connection is already Registered at announce time and
receives its own join notification.  Connecting handle 1 as "alice" into
an empty registry delivers the announcement to handle 1 itself — under
the claim (joiner not yet Registered at announce time) the announcement
starting from an empty registry would be delivered to nobody. -/
theorem connect_announce_reaches_joiner :
    (connect [] 1 "alice" (fun _ => false)).1 =
      [(1, "System: alice joined the chat")] ∧
    (connect [] 1 "alice" (fun _ => false)).2 = [(1, "alice")] :=
  ⟨rfl, rfl⟩

/-- C7 amended: `connect` records the mapping first and then announces
`"System: <username> joined the chat"` to all Registered connections with
no exclusion — including the joining connection, which is already
Registered at announce time. -/
theorem connect_registers_before_announce (r : Registry) (ws : Handle) (u : String) :
    (connect r ws u (fun _ => false)).2 = dictInsert r ws u ∧
    (connect r ws u (fun _ => false)).1 =
      (dictInsert r ws u).map (fun p => (p.1, "System: " ++ (u ++ " joined the chat"))) ∧
    (ws, "System: " ++ (u ++ " joined the chat")) ∈
      (connect r ws u (fun _ => false)).1 := by
  have hne : (dictInsert r ws u).isEmpty = false := by
    cases hd : dictInsert r ws u
    · exact absurd hd (dictInsert_ne_nil r ws u)
    · rfl
  have hfilter : (dictInsert r ws u).filter (fun p => none ≠ some p.1) =
      dictInsert r ws u := by
    apply List.filter_eq_self.mpr
    intro a _
    simp
  have hmain : connect r ws u (fun _ => false) =
      ((dictInsert r ws u).map (fun p => (p.1, "System: " ++ (u ++ " joined the chat"))),
        dictInsert r ws u) := by
    simp only [connect, broadcast_system, hne, Bool.false_eq_true, if_false,
      broadcastPass_noFail, hfilter, removeAll_nil]
  refine ⟨by rw [hmain], by rw [hmain], ?_⟩
  rw [hmain]
  exact List.mem_map.mpr ⟨(ws, u), mem_dictInsert_self r ws u, rfl⟩

/-- C8: `broadcast` sends the message verbatim to every Registered
connection except the excluded sender; concretely, after registering
handle 1 as "alice" and handle 2 as "bob", broadcasting "bob: hi" with
handle 2 excluded delivers exactly one message — "bob: hi" to handle 1 —
and handle 2 receives nothing from that call. -/
theorem broadcast_delivers_verbatim_except_sender :
    (∀ (r : Registry) (msg : String) (e : Handle),
      (broadcast r msg (some e) (fun _ => false)).1 =
        (r.filter (fun p => p.1 ≠ e)).map (fun p => (p.1, msg))) ∧
    (broadcast (connect (connect [] 1 "alice" (fun _ => false)).2 2 "bob"
        (fun _ => false)).2 "bob: hi" (some 2) (fun _ => false)).1 =
      [(1, "bob: hi")] := by
  constructor
  · intro r msg e
    cases r with
    | nil => rfl
    | cons hd tl =>
      simp only [broadcast, List.isEmpty_cons, Bool.false_eq_true, if_false,
        broadcastPass_noFail]
      congr 1
      apply List.filter_congr
      intro p _
      apply decide_eq_decide.mpr
      constructor
      · intro hna hc
        exact hna (by rw [hc])
      · intro hna hc
        injection hc with hc2
        exact hna hc2.symm
  · rfl

/-- C9: `disconnect` returns the registered username (if any) and removes
the entry; it is idempotent — a second call on the same handle returns
`none` and leaves the registry unchanged. -/
theorem disconnect_idempotent (r : Registry) (ws : Handle) :
    (disconnect r ws).1 = dictGet r ws ∧
    dictGet (disconnect r ws).2 ws = none ∧
    (disconnect (disconnect r ws).2 ws).1 = none ∧
    (disconnect (disconnect r ws).2 ws).2 = (disconnect r ws).2 := by
  refine ⟨rfl, dictGet_filter_self r ws, dictGet_filter_self r ws, ?_⟩
  exact filter_eq_self_of_dictGet_none _ _ (dictGet_filter_self r ws)

/-- C10: `disconnect ws` is frame-preserving — the entry of every other
handle is untouched, and when `ws` is not registered the whole mapping is
unchanged. -/
theorem disconnect_frame (r : Registry) (ws h : Handle) (hne : h ≠ ws) :
    dictGet (disconnect r ws).2 h = dictGet r h ∧
    (dictGet r ws = none → (disconnect r ws).2 = r) :=
  ⟨dictGet_filter_ne r ws h hne,
    fun hnone => filter_eq_self_of_dictGet_none r ws hnone⟩

/-- Witness for C10: removing handle 2 leaves handle 1's registration
intact. -/
theorem disconnect_frame_witness :
    dictGet (disconnect [(1, "a"), (2, "b")] 2).2 1 =
      dictGet [(1, "a"), (2, "b")] 1 :=
  (disconnect_frame [(1, "a"), (2, "b")] 2 1 (by decide)).1

/-! ## Claims about the authentication path -/

/-- C2: for every subject `S`, positive time-to-live `T`, clock and
secret, the token issued by `create_access_token` verifies immediately
after issuance with no error and yields subject `S`; and when `S`
resolves in the user table, `get_current_user` accepts with that user. -/
theorem verify_issue_roundtrip (S : String) (T now : Int) (secret : String)
    (db : List User) (hT : 0 < T) :
    verify_token (create_access_token S (some T) now secret) secret now = .ok S ∧
    (∀ u, get_user db S = some u →
      get_current_user (create_access_token S (some T) now secret) secret now db =
        .ok u) := by
  have hexp : ¬ (now + T < now) := by omega
  have hv : verify_token (create_access_token S (some T) now secret) secret now =
      .ok S := by
    simp [verify_token, create_access_token, jwt_encode, jwt_decode, hexp]
  refine ⟨hv, fun u hu => ?_⟩
  simp [get_current_user, hv, hu]

/-- Witness for C2: a token for "alice" with a 60-second lifetime verifies
to subject "alice" at issuance time. -/
theorem verify_issue_roundtrip_witness :
    verify_token (create_access_token "alice" (some 60) 0 "k") "k" 0 =
      .ok "alice" :=
  (verify_issue_roundtrip "alice" 60 0 "k" [] (by decide)).1

/-- C3 counterexample: `jwt.decode` verifies the signature before
validating `exp`, so a token whose `exp` (5) is in the past of the
verification clock (10) but whose signature was made with the wrong key
is rejected as `Malformed` (`credentials_exception`), not as
`Expired` ("Token has expired") — refuting "yields Expired regardless of
signature validity". -/
theorem expired_bad_signature_rejected_as_malformed :
    pastExpClaims.exp < 10 ∧
    classify_token (jwt_encode pastExpClaims "wrong") "secret" 10 =
      .error .Malformed ∧
    verify_token (jwt_encode pastExpClaims "wrong") "secret" 10 =
      .error credentials_exception ∧
    credentials_exception ≠ ⟨401, "Token has expired"⟩ :=
  ⟨by decide, rfl, rfl, by decide⟩

/-- C3 amended: for every token whose signature is valid against the
configured secret and whose `exp` is in the past of the verification
clock, verification yields the distinct "Token has expired" rejection
(`Expired` kind); a token with an invalid signature is instead rejected
as `Malformed` before `exp` is inspected. -/
theorem expired_valid_signature_yields_expired (c : Claims) (secret : String)
    (now : Int) (hexp : c.exp < now) :
    verify_token (jwt_encode c secret) secret now =
      .error ⟨401, "Token has expired"⟩ ∧
    classify_token (jwt_encode c secret) secret now = .error .Expired := by
  constructor
  · simp [verify_token, jwt_decode, jwt_encode, hexp]
  · simp [classify_token, jwt_decode, jwt_encode, hexp]

/-- Witness for C3 amended: the correctly signed token with `exp = 5`
verified at clock 10 yields "Token has expired". -/
theorem expired_valid_signature_yields_expired_witness :
    verify_token (jwt_encode pastExpClaims "secret") "secret" 10 =
      .error ⟨401, "Token has expired"⟩ :=
  (expired_valid_signature_yields_expired pastExpClaims "secret" 10 (by decide)).1

/-- C4: a token signed with any key other than the configured secret is
rejected as `Malformed` (`credentials_exception`, via `JWTError`), for
every claim set — the signature check fails before `exp`, `type` or `sub`
is inspected. -/
theorem wrong_secret_yields_malformed (c : Claims) (k secret : String)
    (now : Int) (hk : k ≠ secret) :
    verify_token (jwt_encode c k) secret now = .error credentials_exception ∧
    classify_token (jwt_encode c k) secret now = .error .Malformed := by
  have hsig : (⟨c, k⟩ : Sig) ≠ ⟨c, secret⟩ := by
    intro hc
    injection hc with _ h2
    exact hk h2
  constructor
  · simp [verify_token, jwt_decode, jwt_encode, hsig]
  · simp [classify_token, jwt_decode, jwt_encode, hsig]

/-- Witness for C4: an expired, wrong-type, subject-less token signed with
key "a" is rejected as `Malformed` when verified against secret "b" — no
claim is inspected. -/
theorem wrong_secret_yields_malformed_witness :
    verify_token (jwt_encode ⟨none, 0, -5, some "refresh"⟩ "a") "b" 3 =
      .error credentials_exception :=
  (wrong_secret_yields_malformed ⟨none, 0, -5, some "refresh"⟩ "a" "b" 3
    (by decide)).1

theorem get_current_user_classified (t : Token) (secret : String) (now : Int)
    (db : List User) :
    get_current_user t secret now db =
      match classify_token t secret now with
      | .error k => .error (renderVerifyError k)
      | .ok s =>
        match get_user db s with
        | none => .error credentials_exception
        | some u => .ok u := by
  unfold get_current_user verify_token classify_token
  rcases hd : jwt_decode t secret now with de | payload
  · cases de <;> rfl
  · by_cases hty : payload.typ = some "access"
    · rcases hsub : payload.sub with _ | username
      · simp [hty, hsub, renderVerifyError]
      · simp [hty, hsub]
    · simp [hty, renderVerifyError]

/-- C5: the HTTP path (`get_current_user`) and the realtime path
(`verify_token_and_get_user`) make the same authentication decision on
every token, clock and user table: they accept exactly the same tokens
with the same principal, and whenever one rejects, both reject with an
HTTP 401 unauthorized status. -/
theorem auth_paths_agree (t : Token) (secret : String) (now : Int)
    (db : List User) :
    acceptedUser (get_current_user t secret now db) =
      acceptedUser (verify_token_and_get_user t secret now db) ∧
    (∀ e, get_current_user t secret now db = .error e → e.status_code = 401) ∧
    (∀ e, verify_token_and_get_user t secret now db = .error e →
      e.status_code = 401) := by
  rcases hd : jwt_decode t secret now with de | payload
  · cases de <;>
      simp [get_current_user, verify_token, verify_token_and_get_user, hd,
        acceptedUser, credentials_exception]
  · by_cases hty : payload.typ = some "access"
    · rcases hsub : payload.sub with _ | username
      · simp [get_current_user, verify_token, verify_token_and_get_user, hd,
          hty, hsub, acceptedUser, credentials_exception]
      · rcases hu : get_user db username with _ | u
        · simp [get_current_user, verify_token, verify_token_and_get_user, hd,
            hty, hsub, hu, acceptedUser, credentials_exception]
        · simp [get_current_user, verify_token, verify_token_and_get_user, hd,
            hty, hsub, hu, acceptedUser]
    · simp [get_current_user, verify_token, verify_token_and_get_user, hd,
        hty, acceptedUser, credentials_exception]

/-- Witness for C5: both paths accept the valid "alice" token against a
table containing alice, with the same principal. -/
theorem auth_paths_agree_witness :
    acceptedUser (get_current_user tokenAlice "secret" 50 [⟨1, "alice", "h"⟩]) =
      acceptedUser (verify_token_and_get_user tokenAlice "secret" 50
        [⟨1, "alice", "h"⟩]) :=
  (auth_paths_agree tokenAlice "secret" 50 [⟨1, "alice", "h"⟩]).1

/-- C6 counterexample: the guard does NOT keep the five error kinds
distinct.  A wrong-key token (`Malformed`), a correctly signed token with
no `sub` claim (`MissingSubject`), and a fully valid token whose subject
is missing from the user table (`UnknownSubject`) all produce the
identical rejection `credentials_exception` — three of the five kinds the
claim requires to be distinct collapse into one. -/
theorem guard_conflates_error_kinds :
    classify_token tokenWrongKey "secret" 50 = .error .Malformed ∧
    classify_token tokenNoSub "secret" 50 = .error .MissingSubject ∧
    classify_token tokenAlice "secret" 50 = .ok "alice" ∧
    get_user [] "alice" = none ∧
    get_current_user tokenWrongKey "secret" 50 [] = .error credentials_exception ∧
    get_current_user tokenNoSub "secret" 50 [] = .error credentials_exception ∧
    get_current_user tokenAlice "secret" 50 [] = .error credentials_exception :=
  ⟨rfl, rfl, rfl, rfl, rfl, rfl, rfl⟩

/-- C6 amended: `get_current_user` renders `Expired` and `WrongType` as
their own distinct rejections ("Token has expired", "Invalid token
type"), but maps `Malformed`, `MissingSubject` and the
unknown-subject case all to the same `credentials_exception` rejection,
losing those distinctions. -/
theorem guard_error_mapping (t : Token) (secret : String) (now : Int)
    (db : List User) :
    (classify_token t secret now = .error .Malformed →
      get_current_user t secret now db = .error credentials_exception) ∧
    (classify_token t secret now = .error .Expired →
      get_current_user t secret now db = .error ⟨401, "Token has expired"⟩) ∧
    (classify_token t secret now = .error .WrongType →
      get_current_user t secret now db = .error ⟨401, "Invalid token type"⟩) ∧
    (classify_token t secret now = .error .MissingSubject →
      get_current_user t secret now db = .error credentials_exception) ∧
    (∀ s, classify_token t secret now = .ok s → get_user db s = none →
      get_current_user t secret now db = .error credentials_exception) ∧
    (⟨401, "Token has expired"⟩ : AuthReject) ≠ ⟨401, "Invalid token type"⟩ ∧
    credentials_exception ≠ ⟨401, "Token has expired"⟩ ∧
    credentials_exception ≠ ⟨401, "Invalid token type"⟩ := by
  have hgc := get_current_user_classified t secret now db
  refine ⟨?_, ?_, ?_, ?_, ?_, by decide, by decide, by decide⟩
  · intro h
    rw [hgc, h]
    rfl
  · intro h
    rw [hgc, h]
    rfl
  · intro h
    rw [hgc, h]
    rfl
  · intro h
    rw [hgc, h]
    rfl
  · intro s h hu
    rw [hgc, h]
    simp [hu]

/-- Witness for C6 amended: the subject-less token is rejected with the
same `credentials_exception` a malformed token gets. -/
theorem guard_error_mapping_witness :
    get_current_user tokenNoSub "secret" 50 [] = .error credentials_exception :=
  (guard_error_mapping tokenNoSub "secret" 50 []).2.2.2.1 rfl
